import Mathlib

/-!
# Verification of the outbound-caller appointment subsystem

Shallow embedding of the appointment negotiation and booking subsystem of
the `outboundcaller` repository (`src/agent.py`, `src/google_calendar.py`),
together with theorems settling the specification claims about it.

Time is modelled as civil wall-clock minutes (`Int`) since an epoch placed
at a Monday 00:00, so that `Python datetime.weekday()` (Monday = 0)
corresponds to `(t / 1440) % 7`.  On `Int`, `/` and `%` are Euclidean
division and remainder, which for the positive divisors used here agree
with Python's floor division and modulo.
-/

namespace Outbound

/-! ## Civil-time primitives -/

/-- Day number of an instant (minutes since epoch); Python `//` on a
positive divisor agrees with Euclidean division on `Int`. -/
def dayIndex (t : Int) : Int := t / 1440

/-- Weekday of an instant, Monday = 0 .. Sunday = 6, matching Python
`datetime.weekday()` (the epoch of the model is a Monday 00:00). -/
def wday (t : Int) : Int := (t / 1440) % 7

/-- `now.replace(hour=h, minute=m, second=0, microsecond=0)`: keep the day
of `t`, set the time of day to `h:m`. -/
def replaceTime (t : Int) (h m : Nat) : Int :=
  (t / 1440) * 1440 + (h : Int) * 60 + (m : Int)

/-! ## String utilities mirroring the Python string operations used -/

/-- ASCII lower-casing of one character, as Python `str.lower` acts on the
ASCII inputs in scope. -/
def lowerChar (c : Char) : Char :=
  if 'A' ≤ c ∧ c ≤ 'Z' then Char.ofNat (c.toNat + 32) else c

/-- The whitespace class trimmed by Python `str.strip` / matched by the
regex class `\s` (space, tab, newline, carriage return, vertical tab,
form feed). -/
def isPySpace (c : Char) : Bool :=
  c = ' ' ∨ c = '\t' ∨ c = '\n' ∨ c = '\r' ∨ c.toNat = 11 ∨ c.toNat = 12

/-- Python `str.strip()` on a character list. -/
def stripL (s : List Char) : List Char :=
  ((s.dropWhile isPySpace).reverse.dropWhile isPySpace).reverse

/-- Python `s.lower().strip()`. -/
def lowerStripL (s : List Char) : List Char :=
  stripL (s.map lowerChar)

/-- Python substring test `pat in s`. -/
def containsL : List Char → List Char → Bool
  | [], pat => pat.isEmpty
  | c :: t, pat => pat.isPrefixOf (c :: t) || containsL t pat

/-- Python substring test `pat in s` at the `String` level. -/
def containsS (s pat : String) : Bool := containsL s.toList pat.toList

/-- Worker for `replaceAllL`, structurally recursive on the scanned list:
`skip > 0` means the head character still belongs to the occurrence just
replaced and is dropped without further matching. -/
def replaceAux (pat rep : List Char) : Nat → List Char → List Char
  | _, [] => []
  | Nat.succ k, _ :: t => replaceAux pat rep k t
  | 0, c :: t =>
    if pat.isPrefixOf (c :: t) then
      rep ++ replaceAux pat rep (pat.length - 1) t
    else
      c :: replaceAux pat rep 0 t

/-- Python `s.replace(pat, rep)`: replace every non-overlapping occurrence,
scanning left to right.  All patterns used are nonempty. -/
def replaceAllL (pat rep s : List Char) : List Char :=
  replaceAux pat rep 0 s

/-- Python `s.replace(pat, rep)` at the `String` level. -/
def replaceAllS (s pat rep : String) : String :=
  (replaceAllL pat.toList rep.toList s.toList).asString

/-- Python `s[-n:]`: the last `n` characters. -/
def lastN (n : Nat) (s : List Char) : List Char := s.drop (s.length - n)

/-! ## The clock-time regular expression

`re.search(r'(\d{1,2}):?(\d{2})?\s*(am|pm)', time_lower, re.IGNORECASE)`:
leftmost match, with the backtracking order of the Python engine (greedy
`\d{1,2}`, greedy `:?`, greedy optional `(\d{2})?`).  The input has already
been lower-cased, so `am`/`pm` are matched in lower case.  The result is
`(group1, group2 or 0, is_pm)`. -/

def isDigitC (c : Char) : Bool := '0' ≤ c ∧ c ≤ '9'

def dval (c : Char) : Nat := c.toNat - '0'.toNat

/-- Match `(am|pm)` at the head of the list; `some true` means `pm`. -/
def ampmAt : List Char → Option Bool
  | 'a' :: 'm' :: _ => some false
  | 'p' :: 'm' :: _ => some true
  | _ => none

/-- Match `\s*(am|pm)` at the head of the list with hour/minute already
fixed (no backtracking is needed into `\s*` because `\s` and `a`/`p` are
disjoint). -/
def finishClock (h m : Nat) (cs : List Char) : Option (Nat × Nat × Bool) :=
  match ampmAt (cs.dropWhile isPySpace) with
  | some pm => some (h, m, pm)
  | none => none

/-- Match `(\d{2})?\s*(am|pm)` at the head of the list: try consuming two
digits first (greedy), otherwise leave the optional group empty
(`group(2)` absent means minute 0 in the caller). -/
def minutesOpt (h : Nat) (cs : List Char) : Option (Nat × Nat × Bool) :=
  match cs with
  | a :: b :: rest =>
    if isDigitC a ∧ isDigitC b then
      match finishClock h (10 * dval a + dval b) rest with
      | some r => some r
      | none => finishClock h 0 cs
    else finishClock h 0 cs
  | _ => finishClock h 0 cs

/-- Match `:?(\d{2})?\s*(am|pm)`: try consuming the optional colon first
(greedy), backtracking to the colon-less attempt on failure. -/
def afterHour (h : Nat) (cs : List Char) : Option (Nat × Nat × Bool) :=
  match cs with
  | ':' :: rest =>
    (match minutesOpt h rest with
     | some r => some r
     | none => minutesOpt h (':' :: rest))
  | _ => minutesOpt h cs

/-- Attempt the whole pattern anchored at the head of the list: greedy
`\d{1,2}` (two digits first, backtracking to one). -/
def clockAt : List Char → Option (Nat × Nat × Bool)
  | [] => none
  | c :: rest =>
    if isDigitC c then
      match rest with
      | c2 :: rest2 =>
        if isDigitC c2 then
          match afterHour (10 * dval c + dval c2) rest2 with
          | some r => some r
          | none => afterHour (dval c) rest
        else afterHour (dval c) rest
      | [] => afterHour (dval c) rest
    else none

/-- `re.search`: try each start position left to right. -/
def searchClock : List Char → Option (Nat × Nat × Bool)
  | [] => none
  | c :: rest =>
    match clockAt (c :: rest) with
    | some r => some r
    | none => searchClock rest

/-- 12-hour to 24-hour conversion (`agent.py:883-886` and `1136-1139`):
`PM` adds 12 unless the hour is 12; `12am` becomes 0. -/
def conv24 (h : Nat) (pm : Bool) : Nat :=
  if pm ∧ h ≠ 12 then h + 12
  else if ¬pm ∧ h = 12 then 0
  else h

/-! ## The date/time resolution of `checkAvailability` (`agent.py:821-926`) -/

/-- First weekday name contained in the lowered utterance, searched in the
canonical order Monday..Sunday (`agent.py:891-899`).  The surrounding
`any(day in time_lower for day in day_names)` guard of the source is
equivalent to this returning `some`. -/
def firstWeekday (tl : List Char) : Option Nat :=
  if containsL tl "monday".toList then some 0
  else if containsL tl "tuesday".toList then some 1
  else if containsL tl "wednesday".toList then some 2
  else if containsL tl "thursday".toList then some 3
  else if containsL tl "friday".toList then some 4
  else if containsL tl "saturday".toList then some 5
  else if containsL tl "sunday".toList then some 6
  else none

/-- The clock-time anchoring of `checkAvailability` (`agent.py:888-916`),
given the 24-hour clock time `h24:m` parsed from the utterance:
`tomorrow` anchors to the next day; a named weekday anchors to its next
occurrence (same-day occurrences roll forward 7 days when the clock time
has strictly passed); otherwise today, rolling to tomorrow when the clock
time has strictly passed. -/
def checkClockMoment (tl : List Char) (h24 m : Nat) (now : Int) : Int :=
  if containsL tl "tomorrow".toList then
    replaceTime (now + 1440) h24 m
  else
    match firstWeekday tl with
    | some target =>
      let daysAhead : Int := ((target : Int) - wday now) % 7
      let daysAhead :=
        if daysAhead = 0 ∧ replaceTime now h24 m < now then 7 else daysAhead
      replaceTime (now + daysAhead * 1440) h24 m
    | none =>
      let todayTime := replaceTime now h24 m
      if todayTime < now then replaceTime (now + 1440) h24 m else todayTime

/-- The default of `checkAvailability` (`agent.py:921-926`): tomorrow at
14:00, used both for utterances matching nothing and for any exception
raised while parsing (the whole parse chain is wrapped in `try`). -/
def checkFallback (now : Int) : Int := replaceTime (now + 1440) 14 0

/-- One of the vague dayparts recognised before any other parsing. -/
inductive VaguePer
  | morning
  | afternoon
  | evening
deriving DecidableEq

/-- Outcome of the parsing phase of `checkAvailability`: either an early
vague-period return (no calendar touched) or a concrete instant. -/
inductive CheckParse
  | vaguePeriod (p : VaguePer)
  | moment (t : Int)
deriving DecidableEq

/-- The parsing phase of `checkAvailability` (`agent.py:821-926`).
`isoP` stands for `datetime.datetime.fromisoformat` (external standard
library), returning the civil minutes the source would hold after its
UTC normalisation, or `none` when the library raises `ValueError` (the
surrounding `try` then degrades to the fallback).  Branch order follows
the source: vague dayparts first, then the clock-time regex, then the ISO
attempt (guarded by `"T" in dateTime or "-" in dateTime` on the original
string), then the default.  A parsed clock time that `datetime.replace`
would reject (hour ≥ 24 or minute ≥ 60) raises inside the `try` and so
also degrades to the fallback. -/
def checkParse (isoP : String → Option Int) (dateTime : String) (now : Int) :
    CheckParse :=
  let tl := lowerStripL dateTime.toList
  if containsL tl "morning".toList then .vaguePeriod .morning
  else if containsL tl "afternoon".toList then .vaguePeriod .afternoon
  else if containsL tl "evening".toList then .vaguePeriod .evening
  else .moment (
    match searchClock tl with
    | some (h, m, pm) =>
      let h24 := conv24 h pm
      if 24 ≤ h24 ∨ 60 ≤ m then checkFallback now
      else checkClockMoment tl h24 m now
    | none =>
      if containsL dateTime.toList "T".toList ∨
         containsL dateTime.toList "-".toList then
        match isoP (replaceAllS dateTime "Z" "+00:00") with
        | some dt => dt
        | none => checkFallback now
      else checkFallback now)

/-! ## The date/time resolution of `schedule_meeting` (`agent.py:1091-1184`) -/

/-- The ISO attempt of `schedule_meeting` (`agent.py:1098-1123`): only
tried when `"T" in dateTime and ("+" in dateTime or "-" in dateTime[-6:]
or "Z" in dateTime)`; a trailing `Z` is rewritten to `+00:00` first.
`isoP` models `fromisoformat` (plus the source's conversion of the result
to PST civil time); `none` covers both a false guard and a raised
`ValueError` (caught, falling through to natural-language parsing). -/
def bookIso (isoP : String → Option Int) (dateTime : String) : Option Int :=
  if containsL dateTime.toList "T".toList ∧
     (containsL dateTime.toList "+".toList ∨
      containsL (lastN 6 dateTime.toList) "-".toList ∨
      containsL dateTime.toList "Z".toList) then
    isoP (if "Z".toList.isSuffixOf dateTime.toList then
            replaceAllS dateTime "Z" "+00:00"
          else dateTime)
  else none

/-- The clock-time anchoring of `schedule_meeting` (`agent.py:1141-1175`),
structurally identical to the `checkAvailability` copy but duplicated in
the source. -/
def bookClockMoment (tl : List Char) (h24 m : Nat) (now : Int) : Int :=
  if containsL tl "tomorrow".toList then
    replaceTime (now + 1440) h24 m
  else
    match firstWeekday tl with
    | some target =>
      let daysAhead : Int := ((target : Int) - wday now) % 7
      let daysAhead :=
        if daysAhead = 0 ∧ replaceTime now h24 m < now then 7 else daysAhead
      replaceTime (now + daysAhead * 1440) h24 m
    | none =>
      let todayTime := replaceTime now h24 m
      if todayTime < now then replaceTime (now + 1440) h24 m else todayTime

/-- The parsing phase of `schedule_meeting` (`agent.py:1091-1184`),
returning the resolved PST civil instant, or `none` when the uncaught
`ValueError` of `datetime.replace` (hour ≥ 24 or minute ≥ 60 from the
regex groups) escapes — this part of the source is not inside a `try`.
When the ISO attempt succeeds the source clears `time_lower`, so no
natural-language branch can fire afterwards; with no clock match,
`tomorrow` alone defaults to tomorrow 14:00, and anything else falls back
to `now + 1 hour` (`agent.py:1180-1184`). -/
def bookParse (isoP : String → Option Int) (dateTime : String) (now : Int) :
    Option Int :=
  match bookIso isoP dateTime with
  | some dt => some dt
  | none =>
    let tl := lowerStripL dateTime.toList
    match searchClock tl with
    | some (h, m, pm) =>
      let h24 := conv24 h pm
      if 24 ≤ h24 ∨ 60 ≤ m then none
      else some (bookClockMoment tl h24 m now)
    | none =>
      if containsL tl "tomorrow".toList then some (replaceTime (now + 1440) 14 0)
      else some (now + 60)

/-! ## The email normalisation of `schedule_meeting` (`agent.py:1059-1087`) -/

/-- The spoken-email normalisation of `schedule_meeting`
(`agent.py:1059-1087`).  When the lowered, stripped input contains
`" at "` or `" dot "` (or the redundant `" at gmail dot "`), replace
`" at "` by `@`, `" dot "` by `.`, strip all spaces, then apply the
transcription-artifact fixes in source order (`atgmail`, the
`dotcom`/`dotco` chain with its gmail special case, `dotnet`, `dotorg`).
Otherwise just remove spaces from the original input and lower-case it. -/
def normalizeEmail (email : String) : String :=
  let el := lowerStripL email.toList
  if containsL el " at ".toList ∨ containsL el " dot ".toList ∨
     containsL el " at gmail dot ".toList then
    let p := replaceAllL " ".toList [] (replaceAllL " dot ".toList ".".toList
      (replaceAllL " at ".toList "@".toList el))
    let p := replaceAllL "atgmail".toList "@gmail".toList p
    let p :=
      if containsL p "dotcom".toList ∨ containsL el "dot com".toList then
        replaceAllL "dotcom".toList ".com".toList p
      else if containsL p "dotco".toList then
        if containsL p "gmail".toList then
          let p := replaceAllL "dotco".toList ".com".toList p
          if containsL p "gmail.co".toList ∧ ¬ containsL p "gmail.com".toList then
            replaceAllL "gmail.co".toList "gmail.com".toList p
          else p
        else replaceAllL "dotco".toList ".co".toList p
      else p
    let p := replaceAllL "dotnet".toList ".net".toList p
    let p := replaceAllL "dotorg".toList ".org".toList p
    p.asString
  else
    ((replaceAllL " ".toList [] email.toList).map lowerChar).asString

/-! ## The calendar gateway (`google_calendar.py`)

The backing Google service is modelled as a probe function
`Int → Except Unit Bool`: `.ok true` means the 30-minute slot starting at
the given instant has no overlapping events, `.ok false` means it has
some, and `.error ()` means the API call raised. -/

/-- The probe loop of `get_next_available_time`
(`google_calendar.py:204-242`): up to 48 attempts advancing by 30
minutes; a raised error propagates out of the loop. -/
def nextAvailAux (probe : Int → Except Unit Bool) (pref : Int) :
    Nat → Int → Except Unit Int
  | 0, _ => .ok (pref + 1440)
  | Nat.succ k, cur =>
    match probe cur with
    | .ok true => .ok cur
    | .ok false => nextAvailAux probe pref k (cur + 30)
    | .error e => .error e

/-- `get_next_available_time` (`google_calendar.py:188-251`): run the
probe loop; any exception escaping it is caught and answered with
`preferred_time + 1 hour` (`google_calendar.py:248-251`); an exhausted
48-probe horizon yields `preferred_time + 24 hours`
(`google_calendar.py:241-242`). -/
def getNextAvailableTime (probe : Int → Except Unit Bool) (pref : Int) : Int :=
  match nextAvailAux probe pref 48 pref with
  | .ok t => t
  | .error _ => pref + 60

/-! ## Human-facing time rendering

The claims compare which civil timeline each `strftime` call renders, so
rendering is modelled as the tuple of claim-relevant civil fields
(weekday, 12-hour clock, minute, AM/PM marker) of the instant handed to
`strftime`. -/

/-- The civil fields shown by `strftime("%A ... %I:%M %p")` for an
instant on a given civil timeline. -/
structure ShownTime where
  wd : Int
  h12 : Int
  minute : Int
  pm : Bool
deriving DecidableEq

/-- Extract the shown fields of a civil instant: `%I` maps hour 0 to 12,
1..12 to itself, 13..23 to hour − 12; `%p` is PM from hour 12 on. -/
def shownOf (t : Int) : ShownTime :=
  let h := (t % 1440) / 60
  { wd := wday t
    h12 := if h = 0 then 12 else if h ≤ 12 then h else h - 12
    minute := (t % 1440) % 60
    pm := 12 ≤ h }

/-- The alternative-time string of `checkAvailability` (`agent.py:956`):
`next_available.strftime("%A at %I:%M %p")` applied directly to the
stored UTC instant, with no zone conversion. -/
def nextAvailableShown (tUTC : Int) : ShownTime := shownOf tUTC

/-- The booking-confirmation time of `schedule_meeting`
(`agent.py:1194-1195`): the stored UTC instant converted to the fixed
UTC−8 offset before `strftime`. -/
def confirmationShown (tUTC : Int) : ShownTime := shownOf (tUTC - 480)

/-- The appointment time reported to the Result Sink
(`agent.py:608-617`): the stored UTC instant converted to the fixed
UTC−8 offset before `strftime`. -/
def sheetsShown (tUTC : Int) : ShownTime := shownOf (tUTC - 480)

/-! ## The booking outcome (`agent.py:119-121`, `1197-1248`) -/

/-- Per-call appointment record (`agent.py:119-121`), all-null/false at
call start.  The slot start is the stored UTC instant. -/
structure AppointmentOutcome where
  scheduled : Bool
  slot : Option Int
  attendee_email : Option String
deriving DecidableEq

/-- The all-null/false record created at call start (`agent.py:119-121`). -/
def freshOutcome : AppointmentOutcome :=
  { scheduled := false, slot := none, attendee_email := none }

/-- The three message templates `schedule_meeting` can answer with,
carrying the data interpolated into them. -/
inductive BookMsg
  | needEmail
  | confirmation (shown : ShownTime) (email : String)
  | apology (shown : ShownTime) (email : String)
deriving DecidableEq

/-- `schedule_meeting` (`agent.py:1019-1248`).  `createResult` models the
single `create_meet_event` call: `.ok link` is a normal return
(`google_calendar.py:122-128` — `link = none` when the backing service
rejected or errored, because both `except` arms there return `None`),
and `.error ()` is an exception escaping `create_meet_event` into the
caller's `try` (`agent.py:1239-1248`).  The overall `none` result models
the uncaught `ValueError` of natural-language parsing.  The resolved PST
civil instant is stored as UTC (+480 minutes, `agent.py:1186-1188`). -/
def scheduleMeeting (isoP : String → Option Int)
    (createResult : Except Unit (Option String))
    (st : AppointmentOutcome) (email dateTime : String) (now : Int) :
    Option (AppointmentOutcome × BookMsg) :=
  if email = "" then some (st, .needEmail)
  else
    let em := normalizeEmail email
    match bookParse isoP dateTime now with
    | none => none
    | some w =>
      let startUTC := w + 480
      let shown := confirmationShown startUTC
      match createResult with
      | .ok _link =>
        some ({ scheduled := true, slot := some startUTC,
                attendee_email := some em }, .confirmation shown em)
      | .error _ => some (st, .apology shown em)

/-! ## `checkAvailability` assembled (`agent.py:788-979`) -/

/-- The suggested times offered for each vague daypart
(`agent.py:831`, `846`, `861`). -/
def suggestedTimes : VaguePer → List String
  | .morning => ["9am", "10am", "11am"]
  | .afternoon => ["1pm", "2pm", "3pm"]
  | .evening => ["4pm", "5pm", "6pm"]

/-- The three answer shapes of `checkAvailability`. -/
inductive CheckReply
  | vague (p : VaguePer) (suggested : List String)
  | works
  | alternative (shown : ShownTime)
deriving DecidableEq

/-- `checkAvailability` (`agent.py:788-979`): parse, then — unless a
vague daypart returned early — label the instant UTC, probe the calendar
(`isFree` models `check_availability`, which already converts its own
errors to `False`, `google_calendar.py:184-186`), answering `works` when
free and otherwise the alternative produced by `get_next_available_time`
rendered without zone conversion. -/
def checkAvailability (isoP : String → Option Int) (dateTime : String)
    (now : Int) (isFree : Int → Bool) (probe : Int → Except Unit Bool) :
    CheckReply :=
  match checkParse isoP dateTime now with
  | .vaguePeriod p => .vague p (suggestedTimes p)
  | .moment dt =>
    if isFree dt then .works
    else .alternative (nextAvailableShown (getNextAvailableTime probe dt))

/-! ## Call-outcome finalisation (`agent.py:717-736`, `1250-1258`, `2404-2431`) -/

/-- The per-call finalisation state: the recorded end time and the list
of result records sent to the sink so far (in order, by status). -/
structure CallState where
  callEndTime : Option Int
  reportsSent : List String
  appointmentScheduled : Bool
deriving DecidableEq

/-- `hangup` (`agent.py:717-736`): record the end time and send results
once, both guarded by `call_end_time` being unset; afterwards a no-op on
the recorded state (the room deletion is external). -/
def hangup (st : CallState) (now : Int) (status : String)
    (sendResults : Bool) : CallState :=
  if sendResults ∧ st.callEndTime = none then
    { st with callEndTime := some now, reportsSent := st.reportsSent ++ [status] }
  else if st.callEndTime = none then
    { st with callEndTime := some now }
  else st

/-- `detected_answering_machine` (`agent.py:1250-1258`): sets the end
time and sends a `voicemail` result unconditionally, then hangs up with
`send_results=False`. -/
def detectedAnsweringMachine (st : CallState) (now : Int) : CallState :=
  let st1 := { st with callEndTime := some now,
                       reportsSent := st.reportsSent ++ ["voicemail"] }
  hangup st1 now "voicemail" false

/-- `send_transcript_on_end` (`agent.py:2404-2431`), the participant
disconnect handler: guarded by `call_end_time` being unset; sends a
result (`completed` when an appointment was scheduled, else `no_answer`)
and records the end time. -/
def sendTranscriptOnEnd (st : CallState) (now : Int) : CallState :=
  if st.callEndTime = none then
    let status := if st.appointmentScheduled then "completed" else "no_answer"
    { st with reportsSent := st.reportsSent ++ [status],
              callEndTime := some now }
  else st

/-- A `fromisoformat` stand-in that always raises `ValueError`, used to
instantiate the resolvers on inputs whose ISO branch is irrelevant. -/
def isoNone : String → Option Int := fun _ => none

/-! ## Theorems -/

/-- C1: the claim says a backend reject or error on event creation leaves
the outcome unscheduled and yields the apologetic message.  But
`create_meet_event` catches `HttpError` and every other `Exception` and
returns `None` (`google_calendar.py:130-135`), and `schedule_meeting`
never inspects the returned link: on a backend reject it still marks the
outcome scheduled with slot and email set and returns the confirmation
message (`agent.py:1210-1237`).  The apology branch fires only for an
exception escaping `create_meet_event`, which the backend's reject path
never produces.  Evaluated here at the failing input: email
`john@gmail.com`, utterance `tomorrow at 2pm`, reference Monday 09:00,
backend rejecting the creation (create returns `None`). -/
theorem c1_backend_reject_still_marked_scheduled :
    scheduleMeeting isoNone (.ok none) freshOutcome
        "john@gmail.com" "tomorrow at 2pm" 540
      = some ({ scheduled := true, slot := some 2760,
                attendee_email := some "john@gmail.com" },
              .confirmation ⟨1, 2, 0, true⟩ "john@gmail.com")
    ∧ scheduleMeeting isoNone (.error ()) freshOutcome
        "john@gmail.com" "tomorrow at 2pm" 540
      = some (freshOutcome, .apology ⟨1, 2, 0, true⟩ "john@gmail.com") := by
  decide

/-- C2 counterexample: the claim says that once the outcome is finalized,
*every* later termination trigger leaves it unchanged and sends no second
report.  But `detected_answering_machine` (`agent.py:1250-1258`) records
a new end time and sends a `voicemail` report unconditionally: run on an
already-finalized state (ended at 100 with one `completed` report), it
emits a second report and overwrites the recorded end time. -/
theorem c2_counterexample :
    (detectedAnsweringMachine ⟨some 100, ["completed"], true⟩ 200).reportsSent
      = ["completed", "voicemail"]
    ∧ (detectedAnsweringMachine ⟨some 100, ["completed"], true⟩ 200).callEndTime
      = some 200
    ∧ some (200 : Int) ≠ some (100 : Int) := by
  decide

/-- C2 amended: finalization is idempotent for the `hangup` trigger and
the participant-disconnect trigger (both guarded by `call_end_time`), but
`detected_answering_machine` unconditionally overwrites the end time and
appends one more `voicemail` report. -/
theorem c2_amended (st : CallState) (now t0 : Int) (status : String)
    (b : Bool) (h : st.callEndTime = some t0) :
    hangup st now status b = st
    ∧ sendTranscriptOnEnd st now = st
    ∧ (detectedAnsweringMachine st now).reportsSent
        = st.reportsSent ++ ["voicemail"]
    ∧ (detectedAnsweringMachine st now).callEndTime = some now := by
  refine ⟨?_, ?_, ?_, ?_⟩ <;>
    simp [hangup, sendTranscriptOnEnd, detectedAnsweringMachine, h]

/-- Witness for C2 amended at a concrete finalized state. -/
theorem c2_amended_witness :
    hangup ⟨some 100, ["completed"], true⟩ 200 "failed" true
      = ⟨some 100, ["completed"], true⟩
    ∧ sendTranscriptOnEnd ⟨some 100, ["completed"], true⟩ 200
      = ⟨some 100, ["completed"], true⟩
    ∧ (detectedAnsweringMachine ⟨some 100, ["completed"], true⟩ 200).reportsSent
      = ["completed"] ++ ["voicemail"]
    ∧ (detectedAnsweringMachine ⟨some 100, ["completed"], true⟩ 200).callEndTime
      = some 200 :=
  c2_amended ⟨some 100, ["completed"], true⟩ 200 100 "failed" true rfl

/-- C3: the claim (and the source's own comment at `agent.py:1059-1060`
and its test `test_agent_calendar_tools.py:135`) says the spelled-out
gmail `dot co` input normalizes to `.com`.  But `" dot "` is replaced by
`"."` *before* the `"dotco"` artifact fix is consulted
(`agent.py:1066-1080`), so the fix never fires on spaced dictation:
`"j o h n at gmail dot co"` normalizes to `"john@gmail.co"`, not
`"john@gmail.com"`.  The already-canonical no-op half of the claim does
hold. -/
theorem c3_gmail_dot_co_stays_dot_co :
    normalizeEmail "j o h n at gmail dot co" = "john@gmail.co"
    ∧ normalizeEmail "jane@example.com" = "jane@example.com"
    ∧ ("john@gmail.co" : String) ≠ "john@gmail.com" := by
  decide

/-- C4 counterexample: the claim puts ISO first, then clock time, then
vague periods, and says an utterance with both a clock time and a vague
word resolves by the clock rule.  In the source the vague-daypart checks
run before anything else (`agent.py:826-870`): `"9am tomorrow morning"`
contains the clock time `9am` (third conjunct) yet `checkAvailability`
answers with the morning disambiguation prompt, never touching the
clock-time rule or the calendar. -/
theorem c4_counterexample :
    checkAvailability isoNone "9am tomorrow morning" 0
        (fun _ => true) (fun _ => .ok true)
      = .vague .morning ["9am", "10am", "11am"]
    ∧ checkParse isoNone "9am tomorrow morning" 0 = .vaguePeriod .morning
    ∧ searchClock (lowerStripL "9am tomorrow morning".toList)
      = some (9, 0, false) := by
  decide

/-- C4 amended: the resolver applies its rules first-match-wins, but in
the order vague period first, then clock time, then ISO, then the
fallback: a vague word wins over any clock time present, and with no
vague word a valid clock match wins regardless of what the ISO parser
would say (the conclusion does not depend on `isoP`). -/
theorem c4_amended (isoP : String → Option Int) (u : String) (now : Int)
    (h m' : Nat) (pm : Bool) :
    (containsL (lowerStripL u.toList) "morning".toList = true →
      checkParse isoP u now = .vaguePeriod .morning)
    ∧ (containsL (lowerStripL u.toList) "morning".toList = false →
       containsL (lowerStripL u.toList) "afternoon".toList = false →
       containsL (lowerStripL u.toList) "evening".toList = false →
       searchClock (lowerStripL u.toList) = some (h, m', pm) →
       conv24 h pm < 24 → m' < 60 →
       checkParse isoP u now
         = .moment (checkClockMoment (lowerStripL u.toList) (conv24 h pm) m' now)) := by
  constructor
  · intro hmor
    unfold checkParse
    rw [if_pos hmor]
  · intro h1 h2 h3 hs hh hmm
    unfold checkParse
    rw [if_neg (by rw [h1]; exact Bool.false_ne_true),
        if_neg (by rw [h2]; exact Bool.false_ne_true),
        if_neg (by rw [h3]; exact Bool.false_ne_true), hs]
    dsimp only
    rw [if_neg (by omega)]

/-- Witness for C4 amended: the vague branch at the counterexample input
and the clock branch at `"10am tuesday"`. -/
theorem c4_amended_witness :
    checkParse isoNone "9am tomorrow morning" 0 = .vaguePeriod .morning
    ∧ checkParse isoNone "10am tuesday" 540
      = .moment (checkClockMoment (lowerStripL "10am tuesday".toList) 10 0 540) :=
  ⟨(c4_amended isoNone "9am tomorrow morning" 0 9 0 false).1 (by decide),
   (c4_amended isoNone "10am tuesday" 540 10 0 false).2 (by decide) (by decide)
     (by decide) (by decide) (by decide) (by decide)⟩

/-- C5 counterexample: the claim says the two entry points degrade to the
same fallback (reference + 1 day at 14:00) on unparseable input.  On the
utterance `"blah"` at reference 0, `checkAvailability` falls back to
tomorrow 14:00 (minute 2280) while `schedule_meeting` falls back to
`now + 1 hour` (minute 60, `agent.py:1180-1184`). -/
theorem c5_counterexample :
    checkParse isoNone "blah" 0 = .moment (replaceTime (0 + 1440) 14 0)
    ∧ bookParse isoNone "blah" 0 = some (0 + 60)
    ∧ replaceTime (0 + 1440) 14 0 ≠ (0 + 60 : Int) := by
  decide

/-- C5 amended: on utterances resolved by the (duplicated) clock-time
rules — no vague daypart, no successful ISO attempt in the booking copy,
a valid clock match — both entry points resolve to the same instant; but
in the unparseable case their fallbacks differ: `checkAvailability`
yields reference + 1 day at 14:00 while `schedule_meeting` yields
reference + 1 hour. -/
theorem c5_amended (isoP : String → Option Int) (u : String) (now : Int)
    (h m' : Nat) (pm : Bool) :
    (containsL (lowerStripL u.toList) "morning".toList = false →
     containsL (lowerStripL u.toList) "afternoon".toList = false →
     containsL (lowerStripL u.toList) "evening".toList = false →
     bookIso isoP u = none →
     searchClock (lowerStripL u.toList) = some (h, m', pm) →
     conv24 h pm < 24 → m' < 60 →
     checkParse isoP u now
       = .moment (checkClockMoment (lowerStripL u.toList) (conv24 h pm) m' now)
     ∧ bookParse isoP u now
       = some (checkClockMoment (lowerStripL u.toList) (conv24 h pm) m' now))
    ∧ (containsL (lowerStripL u.toList) "morning".toList = false →
       containsL (lowerStripL u.toList) "afternoon".toList = false →
       containsL (lowerStripL u.toList) "evening".toList = false →
       searchClock (lowerStripL u.toList) = none →
       containsL u.toList "T".toList = false →
       containsL u.toList "-".toList = false →
       containsL (lowerStripL u.toList) "tomorrow".toList = false →
       checkParse isoP u now = .moment (replaceTime (now + 1440) 14 0)
       ∧ bookParse isoP u now = some (now + 60)) := by
  constructor
  · intro h1 h2 h3 hiso hs hh hmm
    constructor
    · unfold checkParse
      rw [if_neg (by rw [h1]; exact Bool.false_ne_true),
          if_neg (by rw [h2]; exact Bool.false_ne_true),
          if_neg (by rw [h3]; exact Bool.false_ne_true), hs]
      dsimp only
      rw [if_neg (by omega)]
    · unfold bookParse
      rw [hiso]
      dsimp only
      rw [hs]
      dsimp only
      rw [if_neg (by omega)]
      rfl
  · intro h1 h2 h3 hs hT hdash htom
    have hiso : bookIso isoP u = none := by
      unfold bookIso
      rw [if_neg]
      intro hc
      rw [hT] at hc
      exact Bool.false_ne_true hc.1
    constructor
    · unfold checkParse
      rw [if_neg (by rw [h1]; exact Bool.false_ne_true),
          if_neg (by rw [h2]; exact Bool.false_ne_true),
          if_neg (by rw [h3]; exact Bool.false_ne_true), hs]
      dsimp only
      rw [if_neg (by rw [hT, hdash]; simp)]
      rfl
    · unfold bookParse
      rw [hiso]
      dsimp only
      rw [hs]
      dsimp only
      rw [if_neg (by rw [htom]; exact Bool.false_ne_true)]

/-- Witness for C5 amended: clock agreement at `"tomorrow at 2pm"` and
fallback divergence at `"blah"`, both from reference Monday 09:00. -/
theorem c5_amended_witness :
    (checkParse isoNone "tomorrow at 2pm" 540
       = .moment (checkClockMoment (lowerStripL "tomorrow at 2pm".toList) 14 0 540)
     ∧ bookParse isoNone "tomorrow at 2pm" 540
       = some (checkClockMoment (lowerStripL "tomorrow at 2pm".toList) 14 0 540))
    ∧ (checkParse isoNone "blah" 540 = .moment (replaceTime (540 + 1440) 14 0)
       ∧ bookParse isoNone "blah" 540 = some (540 + 60)) :=
  ⟨(c5_amended isoNone "tomorrow at 2pm" 540 2 0 true).1 (by decide) (by decide)
     (by decide) (by decide) (by decide) (by decide) (by decide),
   (c5_amended isoNone "blah" 540 2 0 true).2 (by decide) (by decide) (by decide)
     (by decide) (by decide) (by decide) (by decide)⟩

/-- One busy probe advances the loop by a 30-minute stride. -/
theorem nextAvailAux_busy_step (p : Int → Except Unit Bool) (pref cur : Int)
    (k : Nat) (h : p cur = .ok false) :
    nextAvailAux p pref (k + 1) cur = nextAvailAux p pref k (cur + 30) := by
  simp [nextAvailAux, h]

/-- A free probe stops the loop at the current slot. -/
theorem nextAvailAux_free_step (p : Int → Except Unit Bool) (pref cur : Int)
    (k : Nat) (h : p cur = .ok true) :
    nextAvailAux p pref (k + 1) cur = .ok cur := by
  simp [nextAvailAux, h]

/-- A raised probe propagates out of the loop. -/
theorem nextAvailAux_error_step (p : Int → Except Unit Bool) (pref cur : Int)
    (k : Nat) (h : p cur = .error ()) :
    nextAvailAux p pref (k + 1) cur = .error () := by
  simp [nextAvailAux, h]

/-- If every one of the `k` slots probed from `cur` on is busy, the loop
runs to the end of its horizon and reports `pref + 24h`. -/
theorem nextAvailAux_all_busy (p : Int → Except Unit Bool) (pref : Int) :
    ∀ (k : Nat) (cur : Int),
      (∀ i : Nat, i < k → p (cur + 30 * i) = .ok false) →
      nextAvailAux p pref k cur = .ok (pref + 1440)
  | 0, _, _ => rfl
  | k + 1, cur, hbusy => by
    have h0 : p cur = .ok false := by
      have := hbusy 0 (Nat.succ_pos k)
      simpa using this
    rw [nextAvailAux_busy_step p pref cur k h0]
    exact nextAvailAux_all_busy p pref k (cur + 30) (fun i hi => by
      have h' := hbusy (i + 1) (by omega)
      have e : cur + 30 * ((i : Int) + 1) = cur + 30 + 30 * (i : Int) := by ring
      rw [Nat.cast_add, Nat.cast_one, e] at h'
      exact h')

/-- C6: with a backend that reports every one of the 48 probed slots as
busy, `get_next_available_time` returns exactly the start + 24 hours
(= start + 24·60 minutes).  The hypothesis constrains the backend only on
the 48 slots `pref + 30·i, i < 48` — the behaviour at any further slot
(including a would-be 49th probe) is arbitrary, so the result depending
on nothing else shows that no 49th probe is consulted; and the probe loop
itself finishes with a normal `.ok` result, i.e. no exception escapes. -/
theorem c6_horizon_exhausted (pref : Int) (p : Int → Except Unit Bool)
    (hbusy : ∀ i : Nat, i < 48 → p (pref + 30 * i) = .ok false) :
    getNextAvailableTime p pref = pref + 1440
    ∧ nextAvailAux p pref 48 pref = .ok (pref + 1440)
    ∧ pref + 1440 = pref + 24 * 60 := by
  have hk := nextAvailAux_all_busy p pref 48 pref hbusy
  refine ⟨?_, hk, by ring⟩
  unfold getNextAvailableTime
  rw [hk]

/-- Witness for C6 at the always-busy backend and start 0. -/
theorem c6_horizon_exhausted_witness :
    getNextAvailableTime (fun _ => .ok false) 0 = 0 + 1440
    ∧ nextAvailAux (fun _ => .ok false) 0 48 0 = .ok (0 + 1440)
    ∧ (0 : Int) + 1440 = 0 + 24 * 60 :=
  c6_horizon_exhausted 0 (fun _ => .ok false) (fun _ _ => rfl)

/-- C10: when the backend raises on the very first probe, the exception
escapes the probe loop and `get_next_available_time` answers
`preferred_time + 1 hour` (`google_calendar.py:248-251`) — a fallback
distinct from the 24-hour horizon-exhaustion fallback; and a healthy
backend whose first free slot is one hour out produces the identical
answer, so the two cases are indistinguishable to the caller. -/
theorem c10_error_fallback (pref : Int) (p : Int → Except Unit Bool)
    (herr : p pref = .error ()) :
    getNextAvailableTime p pref = pref + 60
    ∧ pref + 60 ≠ pref + 1440
    ∧ getNextAvailableTime (fun t => .ok (decide (t = pref + 60))) pref
      = pref + 60 := by
  refine ⟨?_, by omega, ?_⟩
  · unfold getNextAvailableTime
    rw [show (48 : Nat) = 47 + 1 from rfl, nextAvailAux_error_step p pref pref 47 herr]
  · have h0 : (fun t => (Except.ok (decide (t = pref + 60)) : Except Unit Bool)) pref
        = .ok false := by
      show Except.ok (decide (pref = pref + 60)) = Except.ok false
      rw [decide_eq_false (by omega)]
    have h1 : (fun t => (Except.ok (decide (t = pref + 60)) : Except Unit Bool)) (pref + 30)
        = .ok false := by
      show Except.ok (decide (pref + 30 = pref + 60)) = Except.ok false
      rw [decide_eq_false (by omega)]
    have h2 : (fun t => (Except.ok (decide (t = pref + 60)) : Except Unit Bool)) (pref + 30 + 30)
        = .ok true := by
      show Except.ok (decide (pref + 30 + 30 = pref + 60)) = Except.ok true
      rw [decide_eq_true (by omega)]
    unfold getNextAvailableTime
    rw [show (48 : Nat) = 46 + 1 + 1 from rfl,
        nextAvailAux_busy_step _ pref pref (46 + 1) h0,
        nextAvailAux_busy_step _ pref (pref + 30) 46 h1,
        show (46 : Nat) = 45 + 1 from rfl,
        nextAvailAux_free_step _ pref (pref + 30 + 30) 45 h2]
    show pref + 30 + 30 = pref + 60
    omega

/-- Witness for C10 at start 0 with a backend erroring immediately. -/
theorem c10_error_fallback_witness :
    getNextAvailableTime (fun _ => .error ()) 0 = 0 + 60
    ∧ (0 : Int) + 60 ≠ 0 + 1440
    ∧ getNextAvailableTime (fun t => .ok (decide (t = 0 + 60))) 0 = 0 + 60 :=
  c10_error_fallback 0 (fun _ => .error ()) rfl

/-- `firstWeekday` only produces canonical indices 0..6. -/
theorem firstWeekday_lt_seven (tl : List Char) (d : Nat)
    (h : firstWeekday tl = some d) : d < 7 := by
  unfold firstWeekday at h
  split_ifs at h <;> simp_all <;> omega

/-- The day reached by advancing `now` by `(target − weekday(now)) mod 7`
days and re-anchoring a valid clock time falls on the requested weekday. -/
theorem wday_advance_target (now : Int) (target h24 m : Nat)
    (ht : target < 7) (hh : h24 < 24) (hm : m < 60) :
    wday (replaceTime (now + (((target : Int) - wday now) % 7) * 1440) h24 m)
      = target := by
  unfold wday replaceTime
  omega

/-- With no vague daypart and a valid clock match, `checkParse` reduces to
the clock-time anchoring. -/
theorem checkParse_clock (isoP : String → Option Int) (u : String) (now : Int)
    (h m' : Nat) (pm : Bool)
    (h1 : containsL (lowerStripL u.toList) "morning".toList = false)
    (h2 : containsL (lowerStripL u.toList) "afternoon".toList = false)
    (h3 : containsL (lowerStripL u.toList) "evening".toList = false)
    (hs : searchClock (lowerStripL u.toList) = some (h, m', pm))
    (hh : conv24 h pm < 24) (hmm : m' < 60) :
    checkParse isoP u now
      = .moment (checkClockMoment (lowerStripL u.toList) (conv24 h pm) m' now) := by
  unfold checkParse
  rw [if_neg (by rw [h1]; exact Bool.false_ne_true),
      if_neg (by rw [h2]; exact Bool.false_ne_true),
      if_neg (by rw [h3]; exact Bool.false_ne_true), hs]
  dsimp only
  rw [if_neg (by omega)]

/-- With no successful ISO attempt and a valid clock match, `bookParse`
reduces to the same clock-time anchoring (its own `bookClockMoment` copy
is definitionally the `checkAvailability` one). -/
theorem bookParse_clock (isoP : String → Option Int) (u : String) (now : Int)
    (h m' : Nat) (pm : Bool)
    (hiso : bookIso isoP u = none)
    (hs : searchClock (lowerStripL u.toList) = some (h, m', pm))
    (hh : conv24 h pm < 24) (hmm : m' < 60) :
    bookParse isoP u now
      = some (checkClockMoment (lowerStripL u.toList) (conv24 h pm) m' now) := by
  unfold bookParse
  rw [hiso]
  dsimp only
  rw [hs]
  dsimp only
  rw [if_neg (by omega)]
  rfl

/-- The weekday branch of the clock-time anchoring, as an explicit
conditional. -/
theorem checkClockMoment_weekday (tl : List Char) (h24 m : Nat) (now : Int)
    (target : Nat)
    (htom : containsL tl "tomorrow".toList = false)
    (hwd : firstWeekday tl = some target) :
    checkClockMoment tl h24 m now
      = (if ((target : Int) - wday now) % 7 = 0 ∧ replaceTime now h24 m < now
         then replaceTime (now + 7 * 1440) h24 m
         else replaceTime (now + (((target : Int) - wday now) % 7) * 1440) h24 m) := by
  unfold checkClockMoment
  rw [if_neg (by rw [htom]; exact Bool.false_ne_true), hwd]
  dsimp only
  split_ifs <;> rfl

/-- The day-only branch of the clock-time anchoring (no `tomorrow`, no
weekday name), as an explicit conditional. -/
theorem checkClockMoment_today (tl : List Char) (h24 m : Nat) (now : Int)
    (htom : containsL tl "tomorrow".toList = false)
    (hwd : firstWeekday tl = none) :
    checkClockMoment tl h24 m now
      = (if replaceTime now h24 m < now
         then replaceTime (now + 1440) h24 m
         else replaceTime now h24 m) := by
  unfold checkClockMoment
  rw [if_neg (by rw [htom]; exact Bool.false_ne_true), hwd]

/-- C7 counterexample: the claim says a same-weekday utterance whose clock
time is *not yet in the future* (which includes exact equality) rolls
forward 7 days, never resolving to today.  At reference Monday 09:00
(minute 540), `"monday at 9am"` parses to exactly the reference instant —
not in the future — yet the resolver returns *today* 09:00, because the
source rolls only on the strict comparison `today_time < now`
(`agent.py:902-906`). -/
theorem c7_counterexample :
    checkParse isoNone "monday at 9am" 540 = .moment 540
    ∧ wday 540 = 0
    ∧ replaceTime 540 9 0 = 540
    ∧ (540 : Int) ≠ replaceTime (540 + 7 * 1440) 9 0 := by
  decide

/-- C7 amended: for a weekday-qualified clock utterance (no `tomorrow`),
the resolver anchors to the next occurrence of that weekday on/after
today; when the named weekday is today's, it rolls forward exactly 7 days
iff the parsed clock time is *strictly* in the past, and resolves to
today both when the time is still ahead and at the exact-equality
boundary; the reached day always carries the requested weekday. -/
theorem c7_amended (isoP : String → Option Int) (u : String) (now : Int)
    (h m' : Nat) (pm : Bool) (target : Nat) (da : Int)
    (h1 : containsL (lowerStripL u.toList) "morning".toList = false)
    (h2 : containsL (lowerStripL u.toList) "afternoon".toList = false)
    (h3 : containsL (lowerStripL u.toList) "evening".toList = false)
    (hs : searchClock (lowerStripL u.toList) = some (h, m', pm))
    (hh : conv24 h pm < 24) (hmm : m' < 60)
    (htom : containsL (lowerStripL u.toList) "tomorrow".toList = false)
    (hwd : firstWeekday (lowerStripL u.toList) = some target)
    (hda : da = ((target : Int) - wday now) % 7) :
    (da = 0 → replaceTime now (conv24 h pm) m' < now →
      checkParse isoP u now
        = .moment (replaceTime (now + 7 * 1440) (conv24 h pm) m'))
    ∧ (da = 0 → now ≤ replaceTime now (conv24 h pm) m' →
      checkParse isoP u now = .moment (replaceTime now (conv24 h pm) m'))
    ∧ (da ≠ 0 →
      checkParse isoP u now
        = .moment (replaceTime (now + da * 1440) (conv24 h pm) m'))
    ∧ wday (replaceTime (now + da * 1440) (conv24 h pm) m') = target := by
  have hb : target < 7 := firstWeekday_lt_seven _ _ hwd
  have hred := checkParse_clock isoP u now h m' pm h1 h2 h3 hs hh hmm
  have hw := checkClockMoment_weekday (lowerStripL u.toList) (conv24 h pm) m'
    now target htom hwd
  refine ⟨?_, ?_, ?_, ?_⟩
  · intro h0 hpast
    rw [hred, hw, if_pos ⟨by omega, hpast⟩]
  · intro h0 hfut
    rw [hred, hw, if_neg (by rintro ⟨-, hlt⟩; omega)]
    have hz : ((target : Int) - wday now) % 7 = 0 := by omega
    rw [hz]
    norm_num
  · intro hne
    rw [hred, hw, if_neg (by rintro ⟨hz, -⟩; exact hne (by omega)), ← hda]
  · rw [hda]
    exact wday_advance_target now target (conv24 h pm) m' hb hh hmm

/-- Witness for C7 amended at reference Monday 09:00 with the spec's own
examples: `"monday at 8am"` has already passed and rolls +7 days, and at
weekday distance 1 `"tuesday at 10am"` lands tomorrow. -/
theorem c7_amended_witness :
    checkParse isoNone "monday at 8am" 540
      = .moment (replaceTime (540 + 7 * 1440) 8 0)
    ∧ checkParse isoNone "tuesday at 10am" 540
      = .moment (replaceTime (540 + 1 * 1440) 10 0) :=
  ⟨(c7_amended isoNone "monday at 8am" 540 8 0 false 0 0 (by decide) (by decide)
      (by decide) (by decide) (by decide) (by decide) (by decide) (by decide)
      (by decide)).1 rfl (by decide),
   (c7_amended isoNone "tuesday at 10am" 540 10 0 false 1 1 (by decide)
      (by decide) (by decide) (by decide) (by decide) (by decide) (by decide)
      (by decide) (by decide)).2.2.1 (by decide)⟩

/-- C8 counterexample: the claim says a bare clock time not strictly in
the future — *including the exact-equality boundary* — resolves to the
same clock time one day later.  At reference Monday 09:00 (minute 540),
`"9am"` equals the reference exactly, yet the resolver returns today's
09:00, because the source rolls to tomorrow only on the strict comparison
`today_time < now` (`agent.py:911-916`). -/
theorem c8_counterexample :
    checkParse isoNone "9am" 540 = .moment 540
    ∧ replaceTime 540 9 0 = 540
    ∧ (540 : Int) ≠ replaceTime (540 + 1440) 9 0 := by
  decide

/-- C8 amended: for a bare clock-time utterance (no day qualifier, no
`tomorrow`), both entry points resolve to today's instant whenever it is
*on or after* the reference instant (equality included), and to the same
clock time one day later exactly when it is strictly in the past. -/
theorem c8_amended (isoP : String → Option Int) (u : String) (now : Int)
    (h m' : Nat) (pm : Bool)
    (h1 : containsL (lowerStripL u.toList) "morning".toList = false)
    (h2 : containsL (lowerStripL u.toList) "afternoon".toList = false)
    (h3 : containsL (lowerStripL u.toList) "evening".toList = false)
    (hs : searchClock (lowerStripL u.toList) = some (h, m', pm))
    (hh : conv24 h pm < 24) (hmm : m' < 60)
    (htom : containsL (lowerStripL u.toList) "tomorrow".toList = false)
    (hwd : firstWeekday (lowerStripL u.toList) = none)
    (hiso : bookIso isoP u = none) :
    (now ≤ replaceTime now (conv24 h pm) m' →
      checkParse isoP u now = .moment (replaceTime now (conv24 h pm) m')
      ∧ bookParse isoP u now = some (replaceTime now (conv24 h pm) m'))
    ∧ (replaceTime now (conv24 h pm) m' < now →
      checkParse isoP u now = .moment (replaceTime (now + 1440) (conv24 h pm) m')
      ∧ bookParse isoP u now
        = some (replaceTime (now + 1440) (conv24 h pm) m')) := by
  have hredc := checkParse_clock isoP u now h m' pm h1 h2 h3 hs hh hmm
  have hredb := bookParse_clock isoP u now h m' pm hiso hs hh hmm
  have ht := checkClockMoment_today (lowerStripL u.toList) (conv24 h pm) m'
    now htom hwd
  constructor
  · intro hfut
    constructor
    · rw [hredc, ht, if_neg (by omega)]
    · rw [hredb, ht, if_neg (by omega)]
  · intro hpast
    constructor
    · rw [hredc, ht, if_pos hpast]
    · rw [hredb, ht, if_pos hpast]

/-- Witness for C8 amended at reference Monday 09:00: `"2pm"` is still
ahead and stays today in both entry points. -/
theorem c8_amended_witness :
    checkParse isoNone "2pm" 540 = .moment (replaceTime 540 14 0)
    ∧ bookParse isoNone "2pm" 540 = some (replaceTime 540 14 0) :=
  (c8_amended isoNone "2pm" 540 2 0 true (by decide) (by decide) (by decide)
    (by decide) (by decide) (by decide) (by decide) (by decide) (by decide)).1
    (by decide)

/-- C9 counterexample: the claim says *every* human-facing time string
renders in UTC−8, but the alternative-time message of `checkAvailability`
calls `strftime` on the stored UTC instant with no conversion
(`agent.py:956`).  At Monday 20:00 UTC (minute 1200) the message shows
8:00 PM while the UTC−8 rendering (used by the confirmation and the
Result Sink) shows 12:00 PM. -/
theorem c9_counterexample :
    nextAvailableShown 1200 = ⟨0, 8, 0, true⟩
    ∧ shownOf (1200 - 480) = ⟨0, 12, 0, true⟩
    ∧ nextAvailableShown 1200 ≠ shownOf (1200 - 480)
    ∧ confirmationShown 1200 = shownOf (1200 - 480)
    ∧ sheetsShown 1200 = shownOf (1200 - 480) := by
  decide

/-- C9 amended: the booking-confirmation time and the Result Sink
appointment time render the stored UTC instant shifted to the fixed UTC−8
offset, but the alternative-time message renders the UTC instant's own
civil fields — and its 12-hour clock display disagrees with the UTC−8
rendering at every instant (an 8-hour shift is never a multiple of 12). -/
theorem c9_amended (t : Int) :
    confirmationShown t = shownOf (t - 480)
    ∧ sheetsShown t = shownOf (t - 480)
    ∧ nextAvailableShown t = shownOf t
    ∧ (nextAvailableShown t).h12 ≠ (shownOf (t - 480)).h12 := by
  refine ⟨rfl, rfl, rfl, ?_⟩
  unfold nextAvailableShown shownOf
  dsimp only
  split_ifs <;> omega

/-- Witness for C9 amended at Monday 20:00 UTC. -/
theorem c9_amended_witness :
    confirmationShown 1200 = shownOf (1200 - 480)
    ∧ sheetsShown 1200 = shownOf (1200 - 480)
    ∧ nextAvailableShown 1200 = shownOf 1200
    ∧ (nextAvailableShown 1200).h12 ≠ (shownOf (1200 - 480)).h12 :=
  c9_amended 1200

end Outbound
